import Mathlib

set_option maxRecDepth 10000

/-!
# Shallow embedding of the lessvm-solana VM core

This file embeds the VM of `lessvm-solana/src/vm/` (stack, memory, gas meter,
opcode table, aggregate data structures, and the fetch-decode-execute loop of
`VM::execute` in `core.rs`) as executable Lean definitions, and proves or
refutes the specification claims about it.

Machine integers are modelled as `Nat` with explicit `2^64` bounds where the
Rust source uses checked `u64` arithmetic.  Fallible Rust code returns
`Except`-style results; reachable Rust panics (unchecked slice indexing,
unchecked integer division) are modelled by an explicit `panik` outcome.
-/

namespace LessVM

/-- `2^64`, the exclusive bound of a Rust `u64`. -/
def U64MOD : Nat := 18446744073709551616

/-- `u64::MAX`. -/
def U64MAX : Nat := 18446744073709551615

/-- `u64::checked_add` (`Value::checked_add` in `stack.rs`). -/
def checkedAdd (a b : Nat) : Option Nat :=
  if a + b < U64MOD then some (a + b) else none

/-- `u64::checked_sub` (`Value::checked_sub` in `stack.rs`). -/
def checkedSub (a b : Nat) : Option Nat :=
  if b ≤ a then some (a - b) else none

/-- `u64::checked_mul` (`Value::checked_mul` in `stack.rs`). -/
def checkedMul (a b : Nat) : Option Nat :=
  if a * b < U64MOD then some (a * b) else none

/-- `Value::checked_div` in `stack.rs`: zero divisor gives `None`. -/
def checkedDiv (a b : Nat) : Option Nat :=
  if b = 0 then none else some (a / b)

/-- Little-endian decoding of a byte list (`u64::from_le_bytes`). -/
def fromLeBytes : List Nat → Nat
  | [] => 0
  | b :: t => b + 256 * fromLeBytes t

/-- Little-endian encoding of a `u64` into 8 bytes (`u64::to_le_bytes`). -/
def toLeBytes (v : Nat) : List Nat :=
  [v % 256, v / 256 % 256, v / 256 ^ 2 % 256, v / 256 ^ 3 % 256,
   v / 256 ^ 4 % 256, v / 256 ^ 5 % 256, v / 256 ^ 6 % 256, v / 256 ^ 7 % 256]

/-- `VMError` from `vm/mod.rs`.  The enum in `mod.rs` has nine variants;
`core.rs` additionally references `VMError::DivisionByZero` (in the `Mod`
handler), a variant absent from the enum declaration, which we model as a
tenth constructor. -/
inductive VMError where
  | StackOverflow
  | StackUnderflow
  | InvalidMemoryAccess
  | OutOfGas
  | InvalidInstruction
  | InvalidAccount
  | ArithmeticOverflow
  | ReentrancyDetected
  | InvalidDataStructureOperation
  | DivisionByZero
  deriving DecidableEq, Repr

/-- The discriminant used by `impl From<VMError> for ProgramError`
(`ProgramError::Custom(e as u32)`). -/
def VMError.toCode : VMError → Nat
  | .StackOverflow => 0
  | .StackUnderflow => 1
  | .InvalidMemoryAccess => 2
  | .OutOfGas => 3
  | .InvalidInstruction => 4
  | .InvalidAccount => 5
  | .ArithmeticOverflow => 6
  | .ReentrancyDetected => 7
  | .InvalidDataStructureOperation => 8
  | .DivisionByZero => 9

/-- The host-visible `ProgramError` values `execute` can produce: a custom
code (from a `VMError` or from `Revert`), or `InvalidInstructionData`
(the `SPLTransfer`/`CPI` stubs). -/
inductive ProgErr where
  | custom (code : Nat)
  | invalidInstructionData
  deriving DecidableEq, Repr

/-- `VMError` → `ProgramError` conversion in `vm/mod.rs`. -/
def VMError.toProg (e : VMError) : ProgErr := .custom e.toCode

/-- The operand stack of `stack.rs`.  `data` models the `SmallVec<[Value; 64]>`
(its *length*, not its inline capacity, is what `push` compares against) and
`top` the separately maintained cursor.  `Stack::new` fills `data` with 64
zero values while leaving `top` at 0. -/
structure Stack where
  data : List Nat
  frames : List Nat
  top : Nat
  deriving DecidableEq, Repr

/-- `Stack::new`: `data: smallvec![Value(0); 64]`, empty frames, `top: 0`. -/
def Stack.new : Stack :=
  { data := List.replicate 64 0, frames := [], top := 0 }

/-- `Stack::push`: overflow check is `top >= data.len()`; the value is
appended to the end of `data`. -/
def Stack.push (s : Stack) (v : Nat) : Except VMError Stack :=
  if s.top ≥ s.data.length then .error .StackOverflow
  else .ok { s with data := s.data ++ [v], top := s.top + 1 }

/-- Result of an operation that can succeed, fail with a `VMError`, or hit a
Rust panic (`unwrap` of `None` / out-of-bounds slice index). -/
inductive PopRes (α : Type) where
  | ok (v : α)
  | fail (e : VMError)
  | panik
  deriving DecidableEq, Repr

/-- `Stack::pop`: underflow check on `top`, then `data.pop().unwrap()`
(the unwrap panics if `data` is empty while `top > 0`). -/
def Stack.pop (s : Stack) : PopRes (Nat × Stack) :=
  if s.top = 0 then .fail .StackUnderflow
  else
    match s.data.getLast? with
    | some v => .ok (v, { s with data := s.data.dropLast, top := s.top - 1 })
    | none => .panik

/-- `Stack::peek`: reads `data[top - 1]` (indexing panics if out of range). -/
def Stack.peek (s : Stack) : PopRes Nat :=
  if s.top = 0 then .fail .StackUnderflow
  else
    match s.data.get? (s.top - 1) with
    | some v => .ok v
    | none => .panik

/-- `Stack::dup`: bound check `n >= top`, reads `data[top - 1 - n]`
(indexing panics if out of range), then pushes the value. -/
def Stack.dup (s : Stack) (n : Nat) : PopRes Stack :=
  if n ≥ s.top then .fail .StackUnderflow
  else
    match s.data.get? (s.top - 1 - n) with
    | some v =>
      match s.push v with
      | .ok s2 => .ok s2
      | .error e => .fail e
    | none => .panik

/-- `Stack::swap`: bound check `n >= top`, then swaps `data[top - 1]` with
`data[top - 1 - n]` (`SmallVec::swap` panics if either index is out of
range). -/
def Stack.swap (s : Stack) (n : Nat) : PopRes Stack :=
  if n ≥ s.top then .fail .StackUnderflow
  else
    match s.data.get? (s.top - 1), s.data.get? (s.top - 1 - n) with
    | some a, some b =>
      .ok { s with data := (s.data.set (s.top - 1) b).set (s.top - 1 - n) a }
    | _, _ => .panik

/-- `Stack::depth`. -/
def Stack.depth (s : Stack) : Nat := s.top

/-- `Stack::push_frame`: at most 8 frame markers, records `top`. -/
def Stack.pushFrame (s : Stack) : Except VMError Stack :=
  if s.frames.length ≥ 8 then .error .StackOverflow
  else .ok { s with frames := s.frames ++ [s.top] }

/-- `Stack::pop_frame`: pops the newest marker, truncates `data` to it and
resets `top` to it. -/
def Stack.popFrame (s : Stack) : Except VMError Stack :=
  match s.frames.getLast? with
  | some fs =>
    .ok { s with frames := s.frames.dropLast, data := s.data.take fs, top := fs }
  | none => .error .StackUnderflow

/-- The linear memory of `memory.rs`: byte buffer plus logical `size`. -/
structure Memory where
  data : List Nat
  size : Nat
  deriving DecidableEq, Repr

/-- `Memory::new`: 1024 zero bytes, logical size 0. -/
def Memory.new : Memory :=
  { data := List.replicate 1024 0, size := 0 }

/-- `Memory::ensure_capacity`: grow to `max(len, required, 1024) * 2`
(filling with zeros) when `required > len`. -/
def Memory.ensureCapacity (m : Memory) (required : Nat) : Memory :=
  if required > m.data.length then
    let newCapacity := (max (max m.data.length required) 1024) * 2
    { m with data := m.data ++ List.replicate (newCapacity - m.data.length) 0 }
  else m

/-- Overwrite `l[offset..offset+v.length]` with `v` (the slice
`copy_from_slice` in `Memory::store`). -/
def listWrite (l : List Nat) (offset : Nat) (v : List Nat) : List Nat :=
  l.take offset ++ v ++ l.drop (offset + v.length)

/-- `Memory::store`: overflow-checked end offset, grow, write, bump `size`. -/
def Memory.store (m : Memory) (offset : Nat) (v : List Nat) : Except VMError Memory :=
  if offset + v.length ≥ U64MOD then .error .InvalidMemoryAccess
  else
    let m1 := m.ensureCapacity (offset + v.length)
    .ok { data := listWrite m1.data offset v,
          size := max m1.size (offset + v.length) }

/-- `Memory::store8`. -/
def Memory.store8 (m : Memory) (offset : Nat) (v : Nat) : Except VMError Memory :=
  let m1 := m.ensureCapacity (offset + 1)
  .ok { data := listWrite m1.data offset [v], size := max m1.size (offset + 1) }

/-- `Memory::load`: bounds check `offset + len <= data.len()` (with checked
addition), then the slice. -/
def Memory.load (m : Memory) (offset len : Nat) : Except VMError (List Nat) :=
  if offset + len ≥ U64MOD then .error .InvalidMemoryAccess
  else if offset + len ≤ m.data.length then
    .ok ((m.data.drop offset).take len)
  else .error .InvalidMemoryAccess

/-- `Memory::load8`. -/
def Memory.load8 (m : Memory) (offset : Nat) : Except VMError Nat :=
  if offset + 1 ≥ U64MOD then .error .InvalidMemoryAccess
  else
    match m.data.get? offset with
    | some b => .ok b
    | none => .error .InvalidMemoryAccess

/-- `Memory::expansion_cost` in `memory.rs`: full `3·w + w²/512` for the new
size, zero when the store does not grow the logical size. -/
def Memory.expansionCost (m : Memory) (offset size : Nat) : Nat :=
  let newSize := offset + size
  if newSize ≤ m.size then 0
  else
    let words := (newSize + 31) / 32
    words * 3 + words * words / 512

/-- The gas meter of `gas.rs`. -/
structure Gas where
  remaining : Nat
  lastCheckpoint : Nat
  checkpoints : List Nat
  deriving DecidableEq, Repr

/-- `Gas::new`. -/
def Gas.new (limit : Nat) : Gas :=
  { remaining := limit, lastCheckpoint := limit, checkpoints := [] }

/-- `Gas::consume`: checked subtraction into `remaining`, else out-of-gas. -/
def Gas.consume (g : Gas) (amount : Nat) : Except VMError Gas :=
  if amount ≤ g.remaining then .ok { g with remaining := g.remaining - amount }
  else .error .OutOfGas

/-- `Gas::memory_expansion_cost` in `gas.rs`: `3·w + w²/512` for the new
word count minus the same formula at the current word count. -/
def Gas.memoryExpansionCost (currentSize newSize : Nat) : Nat :=
  if newSize ≤ currentSize then 0
  else
    let currentWords := (currentSize + 31) / 32
    let newWords := (newSize + 31) / 32
    if newWords ≤ currentWords then 0
    else
      newWords * 3 + newWords * newWords / 512 -
        (currentWords * 3 + currentWords * currentWords / 512)

/-- The opcode enumeration of `opcodes.rs`. -/
inductive OpCode where
  | Nop | Push1 | Push8 | Pop | Dup | Swap
  | Add | Sub | Mul | Div | MulDiv | Mod | Exp | SignExtend
  | And | Or | Xor | Not | Byte | Shl | Shr | Sar
  | Load | Store | LoadN | StoreN | Msize | Mload8 | Mstore8
  | Jump | JumpI | Call | Return | Revert
  | Transfer | SPLTransfer | CPI | Log | GetBalance | GetOwner
  | IsWritable | IsSigner
  | BTreeCreate | BTreeInsert | BTreeGet | BTreeRemove | BTreeContains
  | BTreeLen | BTreeFirstKey | BTreeLastKey | BTreeClear
  | TrieCreate | TrieInsert | TrieGet | TrieContains | TrieClear
  | GraphCreate | GraphAddNode | GraphAddEdge | GraphGetNode | GraphSetNode
  | GraphGetNeighbors | GraphBfs | GraphClear
  | OhlcvCreate | OhlcvAddBar | OhlcvGetBar | OhlcvSma
  | HyperCreate | HyperAddNode | HyperAddEdge | HyperAddNodeToEdge
  | Halt
  deriving DecidableEq, Repr

/-- `OpCode::from_byte`: the closed byte → opcode decode table. -/
def OpCode.fromByte (b : Nat) : Option OpCode :=
  match b with
  | 0x00 => some .Nop
  | 0x01 => some .Push1
  | 0x02 => some .Push8
  | 0x03 => some .Pop
  | 0x04 => some .Dup
  | 0x05 => some .Swap
  | 0x10 => some .Add
  | 0x11 => some .Sub
  | 0x12 => some .Mul
  | 0x13 => some .Div
  | 0x14 => some .MulDiv
  | 0x15 => some .Mod
  | 0x16 => some .Exp
  | 0x17 => some .SignExtend
  | 0x18 => some .And
  | 0x19 => some .Or
  | 0x1A => some .Xor
  | 0x1B => some .Not
  | 0x1C => some .Byte
  | 0x1D => some .Shl
  | 0x1E => some .Shr
  | 0x1F => some .Sar
  | 0x20 => some .Load
  | 0x21 => some .Store
  | 0x22 => some .LoadN
  | 0x23 => some .StoreN
  | 0x24 => some .Msize
  | 0x25 => some .Mload8
  | 0x26 => some .Mstore8
  | 0x30 => some .Jump
  | 0x31 => some .JumpI
  | 0x32 => some .Call
  | 0x33 => some .Return
  | 0x34 => some .Revert
  | 0x40 => some .Transfer
  | 0x41 => some .SPLTransfer
  | 0x42 => some .CPI
  | 0x43 => some .Log
  | 0x44 => some .GetBalance
  | 0x45 => some .GetOwner
  | 0x46 => some .IsWritable
  | 0x47 => some .IsSigner
  | 0x50 => some .BTreeCreate
  | 0x51 => some .BTreeInsert
  | 0x52 => some .BTreeGet
  | 0x53 => some .BTreeRemove
  | 0x54 => some .BTreeContains
  | 0x55 => some .BTreeLen
  | 0x56 => some .BTreeFirstKey
  | 0x57 => some .BTreeLastKey
  | 0x58 => some .BTreeClear
  | 0x59 => some .TrieCreate
  | 0x5A => some .TrieInsert
  | 0x5B => some .TrieGet
  | 0x5C => some .TrieContains
  | 0x5D => some .TrieClear
  | 0x60 => some .GraphCreate
  | 0x61 => some .GraphAddNode
  | 0x62 => some .GraphAddEdge
  | 0x63 => some .GraphGetNode
  | 0x64 => some .GraphSetNode
  | 0x65 => some .GraphGetNeighbors
  | 0x66 => some .GraphBfs
  | 0x67 => some .GraphClear
  | 0x68 => some .OhlcvCreate
  | 0x69 => some .OhlcvAddBar
  | 0x6A => some .OhlcvGetBar
  | 0x6B => some .OhlcvSma
  | 0x6C => some .HyperCreate
  | 0x6D => some .HyperAddNode
  | 0x6E => some .HyperAddEdge
  | 0x6F => some .HyperAddNodeToEdge
  | 0xFF => some .Halt
  | _ => none

/-- `OpCode::gas_cost`: the static base gas cost table. -/
def OpCode.gasCost : OpCode → Nat
  | .Nop => 1
  | .Push1 | .Pop => 2
  | .Push8 => 3
  | .Dup | .Swap => 3
  | .Add | .Sub => 3
  | .Mul => 5
  | .Div | .Mod => 8
  | .MulDiv => 10
  | .Exp => 50
  | .SignExtend => 5
  | .And | .Or | .Xor | .Not => 3
  | .Byte => 3
  | .Shl | .Shr | .Sar => 3
  | .Load | .Store => 3
  | .LoadN | .StoreN => 6
  | .Msize => 2
  | .Mload8 | .Mstore8 => 3
  | .Jump => 8
  | .JumpI => 10
  | .Call => 40
  | .Return => 0
  | .Revert => 0
  | .Transfer | .SPLTransfer => 100
  | .CPI => 200
  | .Log => 8
  | .GetBalance | .GetOwner => 20
  | .IsWritable | .IsSigner => 5
  | .BTreeCreate | .TrieCreate | .GraphCreate | .OhlcvCreate | .HyperCreate => 5
  | .BTreeInsert | .BTreeGet | .BTreeRemove | .BTreeContains
  | .BTreeFirstKey | .BTreeLastKey => 15
  | .TrieInsert | .TrieGet | .TrieContains => 20
  | .GraphAddNode | .GraphGetNode | .GraphSetNode => 10
  | .GraphAddEdge | .GraphGetNeighbors => 15
  | .GraphBfs => 50
  | .OhlcvAddBar | .OhlcvGetBar => 8
  | .OhlcvSma => 30
  | .HyperAddNode | .HyperAddEdge | .HyperAddNodeToEdge => 20
  | .BTreeLen | .BTreeClear | .TrieClear | .GraphClear => 5
  | .Halt => 0

/-- `BTreeMapDS` (`data_structures.rs`): a `BTreeMap<u64, u64>`, modelled as
an association list kept sorted by strictly ascending key. -/
structure BTreeMapDS where
  data : List (Nat × Nat)
  deriving DecidableEq, Repr

/-- `BTreeMapDS::new`. -/
def BTreeMapDS.new : BTreeMapDS := { data := [] }

/-- Sorted-insert into the association list: returns the previous value for
the key (the `BTreeMap::insert` return) and the updated list. -/
def btreeInsertList : List (Nat × Nat) → Nat → Nat → Option Nat × List (Nat × Nat)
  | [], k, v => (none, [(k, v)])
  | (k1, v1) :: t, k, v =>
    if k < k1 then (none, (k, v) :: (k1, v1) :: t)
    else if k = k1 then (some v1, (k, v) :: t)
    else
      let r := btreeInsertList t k v
      (r.1, (k1, v1) :: r.2)

/-- `BTreeMapDS::insert`. -/
def BTreeMapDS.insert (m : BTreeMapDS) (k v : Nat) : Option Nat × BTreeMapDS :=
  let r := btreeInsertList m.data k v
  (r.1, { data := r.2 })

/-- `BTreeMapDS::get`. -/
def BTreeMapDS.get (m : BTreeMapDS) (k : Nat) : Option Nat :=
  (m.data.find? (fun p => p.1 = k)).map (·.2)

/-- Remove the first entry for `k`, returning its value (`BTreeMap::remove`). -/
def btreeRemoveList : List (Nat × Nat) → Nat → Option Nat × List (Nat × Nat)
  | [], _ => (none, [])
  | (k1, v1) :: t, k =>
    if k = k1 then (some v1, t)
    else
      let r := btreeRemoveList t k
      (r.1, (k1, v1) :: r.2)

/-- `BTreeMapDS::remove`. -/
def BTreeMapDS.remove (m : BTreeMapDS) (k : Nat) : Option Nat × BTreeMapDS :=
  let r := btreeRemoveList m.data k
  (r.1, { data := r.2 })

/-- `BTreeMapDS::contains_key`. -/
def BTreeMapDS.containsKey (m : BTreeMapDS) (k : Nat) : Bool :=
  (m.get k).isSome

/-- `BTreeMapDS::len`. -/
def BTreeMapDS.len (m : BTreeMapDS) : Nat := m.data.length

/-- `BTreeMapDS::first_key` (smallest key: the head of the sorted list). -/
def BTreeMapDS.firstKey (m : BTreeMapDS) : Option Nat :=
  m.data.head?.map (·.1)

/-- `BTreeMapDS::last_key` (largest key: the last element). -/
def BTreeMapDS.lastKey (m : BTreeMapDS) : Option Nat :=
  m.data.getLast?.map (·.1)

/-- `BTreeMapDS::clear`. -/
def BTreeMapDS.clear (_ : BTreeMapDS) : BTreeMapDS := { data := [] }

/-- A node of `TrieDS`: children as a byte → node-index association list
(the source uses a `HashMap<u8, usize>`, only ever queried per key). -/
structure TrieNode where
  children : List (Nat × Nat)
  isEndOfWord : Bool
  value : Option Nat
  deriving DecidableEq, Repr

/-- `TrieDS`: node arena plus root index. -/
structure TrieDS where
  nodes : List TrieNode
  root : Nat
  deriving DecidableEq, Repr

/-- `TrieDS::new`. -/
def TrieDS.new : TrieDS :=
  { nodes := [{ children := [], isEndOfWord := false, value := none }], root := 0 }

/-- Assoc-list lookup for trie children. -/
def assocFind (l : List (Nat × Nat)) (k : Nat) : Option Nat :=
  (l.find? (fun p => p.1 = k)).map (·.2)

/-- Assoc-list insert (overwrite) for trie children / hash maps. -/
def assocSet : List (Nat × Nat) → Nat → Nat → List (Nat × Nat)
  | [], k, v => [(k, v)]
  | (k1, v1) :: t, k, v =>
    if k1 = k then (k, v) :: t else (k1, v1) :: assocSet t k v

/-- Update the trie node at `idx` with `f`. -/
def trieModify (nodes : List TrieNode) (idx : Nat) (f : TrieNode → TrieNode) :
    List TrieNode :=
  match nodes.get? idx with
  | some n => nodes.set idx (f n)
  | none => nodes

/-- The walk of `TrieDS::insert`: follow or create a child per key byte. -/
def trieInsertGo (nodes : List TrieNode) (current : Nat) :
    List Nat → List TrieNode × Nat
  | [] => (nodes, current)
  | b :: rest =>
    match nodes.get? current with
    | none => (nodes, current)
    | some node =>
      match assocFind node.children b with
      | some next => trieInsertGo nodes next rest
      | none =>
        let newIndex := nodes.length
        let nodes1 := nodes ++ [{ children := [], isEndOfWord := false, value := none }]
        let nodes2 := trieModify nodes1 current
          (fun n => { n with children := assocSet n.children b newIndex })
        trieInsertGo nodes2 newIndex rest

/-- `TrieDS::insert`: walk/create the path, then mark the end node. -/
def TrieDS.insert (t : TrieDS) (key : List Nat) (value : Nat) : TrieDS :=
  let r := trieInsertGo t.nodes t.root key
  { t with nodes := (trieModify r.1 r.2
      (fun n => { n with isEndOfWord := true, value := some value })) }

/-- The walk of `TrieDS::get`. -/
def trieGetGo (nodes : List TrieNode) (current : Nat) : List Nat → Option Nat
  | [] => some current
  | b :: rest =>
    match nodes.get? current with
    | none => none
    | some node =>
      match assocFind node.children b with
      | some next => trieGetGo nodes next rest
      | none => none

/-- `TrieDS::get`: value at the end node if it is marked end-of-word. -/
def TrieDS.get (t : TrieDS) (key : List Nat) : Option Nat :=
  match trieGetGo t.nodes t.root key with
  | none => none
  | some idx =>
    match t.nodes.get? idx with
    | some node => if node.isEndOfWord then node.value else none
    | none => none

/-- `TrieDS::contains`. -/
def TrieDS.contains (t : TrieDS) (key : List Nat) : Bool :=
  (t.get key).isSome

/-- `TrieDS::clear`. -/
def TrieDS.clear (_ : TrieDS) : TrieDS := TrieDS.new

/-- `MAX_GRAPH_NODES` in `data_structures.rs`. -/
def MAX_GRAPH_NODES : Nat := 1024

/-- `GraphDS`: adjacency list plus node values (the source uses `HashMap`s,
modelled as association lists with overwrite-insert). -/
structure GraphDS where
  edges : List (Nat × List (Nat × Nat))
  nodeValues : List (Nat × Nat)
  deriving DecidableEq, Repr

/-- `GraphDS::new`. -/
def GraphDS.new : GraphDS := { edges := [], nodeValues := [] }

/-- Assoc-list lookup (edge lists). -/
def assocFindL (l : List (Nat × List (Nat × Nat))) (k : Nat) :
    Option (List (Nat × Nat)) :=
  (l.find? (fun p => p.1 = k)).map (·.2)

/-- Assoc-list overwrite-insert (edge lists). -/
def assocSetL : List (Nat × List (Nat × Nat)) → Nat → List (Nat × Nat) →
    List (Nat × List (Nat × Nat))
  | [], k, v => [(k, v)]
  | (k1, v1) :: t, k, v =>
    if k1 = k then (k, v) :: t else (k1, v1) :: assocSetL t k v

/-- `GraphDS::add_node`: admission limit `MAX_GRAPH_NODES` (the source
reuses `VMError::StackOverflow` for it), then inserts the value and an empty
adjacency entry if absent. -/
def GraphDS.addNode (g : GraphDS) (nodeId value : Nat) : Except VMError GraphDS :=
  if g.nodeValues.length ≥ MAX_GRAPH_NODES then .error .StackOverflow
  else
    let nv := assocSet g.nodeValues nodeId value
    let es :=
      if (assocFindL g.edges nodeId).isSome then g.edges
      else assocSetL g.edges nodeId []
    .ok { edges := es, nodeValues := nv }

/-- `GraphDS::add_edge`: auto-create endpoints at value 0, then append the
`(to, weight)` pair to the source adjacency list. -/
def GraphDS.addEdge (g : GraphDS) (fromN toN weight : Nat) : Except VMError GraphDS := do
  let g1 ← if (assocFind g.nodeValues fromN).isSome then pure g
           else g.addNode fromN 0
  let g2 ← if (assocFind g1.nodeValues toN).isSome then pure g1
           else g1.addNode toN 0
  let old := (assocFindL g2.edges fromN).getD []
  pure { g2 with edges := assocSetL g2.edges fromN (old ++ [(toN, weight)]) }

/-- `GraphDS::get_node_value`. -/
def GraphDS.getNodeValue (g : GraphDS) (nodeId : Nat) : Option Nat :=
  assocFind g.nodeValues nodeId

/-- `GraphDS::set_node_value`: absent node is `InvalidMemoryAccess`. -/
def GraphDS.setNodeValue (g : GraphDS) (nodeId value : Nat) : Except VMError GraphDS :=
  if (assocFind g.nodeValues nodeId).isSome then
    .ok { g with nodeValues := assocSet g.nodeValues nodeId value }
  else .error .InvalidMemoryAccess

/-- `GraphDS::get_neighbors`. -/
def GraphDS.getNeighbors (g : GraphDS) (nodeId : Nat) : List (Nat × Nat) :=
  (assocFindL g.edges nodeId).getD []

/-- The BFS loop of `GraphDS::bfs`, fuel-bounded (the fuel passed by
`GraphDS.bfs` strictly exceeds the number of possible enqueues, so the
zero-fuel branch is unreachable). -/
def graphBfsGo (g : GraphDS) : Nat → List Nat → List Nat → List Nat → List Nat
  | 0, _, _, result => result
  | _ + 1, [], _, result => result
  | fuel + 1, node :: queue, visited, result =>
    let neighbors := (assocFindL g.edges node).getD []
    let step := neighbors.foldl
      (fun (acc : List Nat × List Nat) nw =>
        if acc.2.contains nw.1 then acc
        else (acc.1 ++ [nw.1], acc.2 ++ [nw.1]))
      (queue, visited)
    graphBfsGo g fuel step.1 step.2 (result ++ [node])

/-- `GraphDS::bfs`: FIFO queue with a visited set, start node first. -/
def GraphDS.bfs (g : GraphDS) (start : Nat) : List Nat :=
  if (assocFind g.nodeValues start).isSome then
    let fuel := g.nodeValues.length + (g.edges.map (·.2.length)).sum + 1
    graphBfsGo g fuel [start] [start] []
  else []

/-- `GraphDS::clear`. -/
def GraphDS.clear (_ : GraphDS) : GraphDS := GraphDS.new

/-- `OHLCVEntry`. -/
structure OHLCVEntry where
  timestamp : Nat
  openV : Nat
  high : Nat
  low : Nat
  close : Nat
  volume : Nat
  deriving DecidableEq, Repr

/-- `OHLCVDS`: entries kept sorted by timestamp. -/
structure OHLCVDS where
  data : List OHLCVEntry
  deriving DecidableEq, Repr

/-- `OHLCVDS::new`. -/
def OHLCVDS.new : OHLCVDS := { data := [] }

/-- Insertion at the position found by the timestamp search in
`OHLCVDS::add_entry` (`binary_search_by_key`, insert at the returned
index): on the sorted list this places the entry before the first element
with a greater-or-equal timestamp. -/
def ohlcvInsert (e : OHLCVEntry) : List OHLCVEntry → List OHLCVEntry
  | [] => [e]
  | x :: t => if e.timestamp ≤ x.timestamp then e :: x :: t
              else x :: ohlcvInsert e t

/-- `OHLCVDS::add_entry`. -/
def OHLCVDS.addEntry (o : OHLCVDS) (e : OHLCVEntry) : Except VMError OHLCVDS :=
  .ok { data := ohlcvInsert e o.data }

/-- `OHLCVDS::get_entry`. -/
def OHLCVDS.getEntry (o : OHLCVDS) (index : Nat) : Option OHLCVEntry :=
  o.data.get? index

/-- `OHLCVDS::calculate_sma`: sliding-window mean of the close field with
integer truncation, emitted with the window-end timestamps. -/
def OHLCVDS.calculateSma (o : OHLCVDS) (period : Nat) : List (Nat × Nat) :=
  if period = 0 ∨ o.data.length < period then []
  else
    (List.range (o.data.length - period + 1)).map (fun i =>
      let window := (o.data.drop i).take period
      (((o.data.get? (i + period - 1)).map (·.timestamp)).getD 0,
       (window.map (·.close)).sum / period))

/-- `HypergraphDS`: hyperedges as node-id sets (association list of lists),
node values and edge weights. -/
structure HypergraphDS where
  edges : List (Nat × List Nat)
  nodeValues : List (Nat × Nat)
  edgeWeights : List (Nat × Nat)
  deriving DecidableEq, Repr

/-- `HypergraphDS::new`. -/
def HypergraphDS.new : HypergraphDS :=
  { edges := [], nodeValues := [], edgeWeights := [] }

/-- Assoc-list lookup for hyperedge node sets. -/
def assocFindN (l : List (Nat × List Nat)) (k : Nat) : Option (List Nat) :=
  (l.find? (fun p => p.1 = k)).map (·.2)

/-- Assoc-list overwrite-insert for hyperedge node sets. -/
def assocSetN : List (Nat × List Nat) → Nat → List Nat → List (Nat × List Nat)
  | [], k, v => [(k, v)]
  | (k1, v1) :: t, k, v =>
    if k1 = k then (k, v) :: t else (k1, v1) :: assocSetN t k v

/-- `HypergraphDS::add_node`. -/
def HypergraphDS.addNode (h : HypergraphDS) (nodeId value : Nat) :
    Except VMError HypergraphDS :=
  .ok { h with nodeValues := assocSet h.nodeValues nodeId value }

/-- `HypergraphDS::create_hyperedge`. -/
def HypergraphDS.createHyperedge (h : HypergraphDS) (edgeId weight : Nat) :
    Except VMError HypergraphDS :=
  .ok { h with edges := assocSetN h.edges edgeId [],
               edgeWeights := assocSet h.edgeWeights edgeId weight }

/-- `HypergraphDS::add_node_to_edge`: auto-creates the node (value 0) and
the edge (weight 1), then inserts the node id into the edge set. -/
def HypergraphDS.addNodeToEdge (h : HypergraphDS) (edgeId nodeId : Nat) :
    Except VMError HypergraphDS := do
  let h1 ← if (assocFind h.nodeValues nodeId).isSome then pure h
           else h.addNode nodeId 0
  let h2 ← if (assocFindN h1.edges edgeId).isSome then pure h1
           else h1.createHyperedge edgeId 1
  let old := (assocFindN h2.edges edgeId).getD []
  let upd := if old.contains nodeId then old else old ++ [nodeId]
  pure { h2 with edges := assocSetN h2.edges edgeId upd }

/-- `DataStructureStore` in `core.rs`: five vectors of optional instances,
all starting empty (`Vec::with_capacity` reserves space but leaves the
length at zero). -/
structure DataStructureStore where
  btrees : List (Option BTreeMapDS)
  tries : List (Option TrieDS)
  graphs : List (Option GraphDS)
  ohlcvs : List (Option OHLCVDS)
  hypergraphs : List (Option HypergraphDS)
  deriving DecidableEq, Repr

/-- `DataStructureStore::new`. -/
def DataStructureStore.new : DataStructureStore :=
  { btrees := [], tries := [], graphs := [], ohlcvs := [], hypergraphs := [] }

/-- `Vec::resize_with(id + 1, || None)` when `id >= len`, as used by
`DataStructureStore::ensure_capacity`. -/
def listEnsure {α : Type} (l : List (Option α)) (id : Nat) : List (Option α) :=
  if id ≥ l.length then l ++ List.replicate (id + 1 - l.length) none else l

/-- The slice of Solana `AccountInfo` the VM consumes: mutable lamports,
owner key bytes, account data, signer and writable flags. -/
structure AccountInfo where
  lamports : Nat
  ownerBytes : List Nat
  dataBytes : List Nat
  isSigner : Bool
  isWritable : Bool
  deriving DecidableEq, Repr

/-- The `VM` struct of `core.rs` (the fields `execute` touches):
`entered` is the `ReentrancyGuard` flag. -/
structure VMState where
  pc : Nat
  gas : Gas
  stack : Stack
  memory : Memory
  accounts : List AccountInfo
  dataStructures : DataStructureStore
  entered : Bool
  deriving DecidableEq, Repr

/-- How one iteration of the dispatch loop ends. -/
inductive StepExit where
  /-- fall through to the next iteration -/
  | next
  /-- `Halt`: `break`, after which the loop epilogue clears the guard and
  returns `Ok(None)` -/
  | halted
  /-- `Return`: `return Ok(Some(v))`, bypassing the guard-clearing epilogue -/
  | ret (v : Nat)
  /-- the early `return Ok(())` in the `SignExtend` handler (core.rs:333),
  which leaves the loop without running the epilogue -/
  | retNone
  /-- `return Err(e)` / `?`, bypassing the epilogue -/
  | fail (e : ProgErr)
  /-- a Rust panic (out-of-bounds index, `unwrap` of `None`, unchecked
  integer division by zero) -/
  | panik
  deriving DecidableEq, Repr

/-- Shorthand: abort the step with a `VMError`. -/
def failSt (s : VMState) (e : VMError) : VMState × StepExit := (s, .fail e.toProg)

/-- `self.stack.pop()?` and continue with the value. -/
def popK (s : VMState) (k : Nat → VMState → VMState × StepExit) : VMState × StepExit :=
  match s.stack.pop with
  | .ok (v, st) => k v { s with stack := st }
  | .fail e => failSt s e
  | .panik => (s, .panik)

/-- `self.stack.push(v)?` and continue. -/
def pushK (s : VMState) (v : Nat) (k : VMState → VMState × StepExit) : VMState × StepExit :=
  match s.stack.push v with
  | .ok st => k { s with stack := st }
  | .error e => failSt s e

/-- Push a list of values left to right (each `push` checked as in the
source loops). -/
def pushListK : VMState → List Nat → (VMState → VMState × StepExit) → VMState × StepExit
  | s, [], k => k s
  | s, v :: t, k => pushK s v (fun s2 => pushListK s2 t k)

/-- The square-and-multiply loop of the `Exp` handler: the running result is
multiplied in on set bits, and the base power is squared (checked) on every
iteration — including the last, so a base power overflow faults even when
the result itself fits. -/
def expGo (result basePower e : Nat) : Except VMError Nat :=
  if h : e = 0 then .ok result
  else
    match (if e % 2 = 1 then checkedMul result basePower else some result) with
    | none => .error .ArithmeticOverflow
    | some r =>
      match checkedMul basePower basePower with
      | none => .error .ArithmeticOverflow
      | some bp => expGo r bp (e / 2)
termination_by e
decreasing_by exact Nat.div_lt_self (Nat.pos_of_ne_zero h) (by omega)

/-- The host-bridge and aggregate-data-structure handler arms of
`VM::execute` (split out of `runOp` for readability). -/
def runOpRest (op : OpCode) (s : VMState) : VMState × StepExit :=
  match op with
  | .Transfer =>
    popK s (fun amount s2 => popK s2 (fun destIdx s3 => popK s3 (fun srcIdx s4 =>
      if srcIdx ≥ s4.accounts.length ∨ destIdx ≥ s4.accounts.length then
        failSt s4 .InvalidAccount
      else
        match s4.accounts.get? srcIdx with
        | none => (s4, .panik)
        | some src =>
          match checkedSub src.lamports amount with
          | none => failSt s4 .ArithmeticOverflow
          | some newSrc =>
            let accounts1 := s4.accounts.set srcIdx { src with lamports := newSrc }
            match accounts1.get? destIdx with
            | none => (s4, .panik)
            | some dest =>
              match checkedAdd dest.lamports amount with
              | none => failSt { s4 with accounts := accounts1 } .ArithmeticOverflow
              | some newDest =>
                ({ s4 with accounts :=
                    accounts1.set destIdx { dest with lamports := newDest } }, .next))))
  | .SPLTransfer => (s, .fail .invalidInstructionData)
  | .CPI => (s, .fail .invalidInstructionData)
  | .Log => popK s (fun _ s2 => (s2, .next))
  | .GetBalance =>
    popK s (fun accountIdx s2 =>
      if accountIdx ≥ s2.accounts.length then failSt s2 .InvalidAccount
      else
        match s2.accounts.get? accountIdx with
        | none => (s2, .panik)
        | some a => pushK s2 a.lamports (fun s3 => (s3, .next)))
  | .GetOwner =>
    popK s (fun accountIdx s2 =>
      if accountIdx ≥ s2.accounts.length then failSt s2 .InvalidAccount
      else
        match s2.accounts.get? accountIdx with
        | none => (s2, .panik)
        | some a => pushK s2 (fromLeBytes (a.ownerBytes.take 8)) (fun s3 => (s3, .next)))
  | .IsWritable =>
    popK s (fun accountIdx s2 =>
      if accountIdx ≥ s2.accounts.length then failSt s2 .InvalidAccount
      else
        match s2.accounts.get? accountIdx with
        | none => (s2, .panik)
        | some a => pushK s2 (if a.isWritable then 1 else 0) (fun s3 => (s3, .next)))
  | .IsSigner =>
    popK s (fun accountIdx s2 =>
      if accountIdx ≥ s2.accounts.length then failSt s2 .InvalidAccount
      else
        match s2.accounts.get? accountIdx with
        | none => (s2, .panik)
        | some a => pushK s2 (if a.isSigner then 1 else 0) (fun s3 => (s3, .next)))
  | .BTreeCreate =>
    popK s (fun id s2 =>
      if id ≥ s2.dataStructures.btrees.length then
        failSt s2 .InvalidDataStructureOperation
      else
        ({ s2 with dataStructures := { s2.dataStructures with
            btrees := s2.dataStructures.btrees.set id (some BTreeMapDS.new) } }, .next))
  | .BTreeInsert =>
    popK s (fun value s2 => popK s2 (fun key s3 => popK s3 (fun id s4 =>
      if id ≥ s4.dataStructures.btrees.length then
        failSt s4 .InvalidDataStructureOperation
      else
        match s4.dataStructures.btrees.get? id with
        | none => (s4, .panik)
        | some none => failSt s4 .InvalidDataStructureOperation
        | some (some b) =>
          let r := b.insert key value
          let s5 := { s4 with dataStructures := { s4.dataStructures with
              btrees := s4.dataStructures.btrees.set id (some r.2) } }
          pushK s5 (r.1.getD 0) (fun s6 => (s6, .next)))))
  | .BTreeGet =>
    popK s (fun key s2 => popK s2 (fun id s3 =>
      if id ≥ s3.dataStructures.btrees.length then
        failSt s3 .InvalidDataStructureOperation
      else
        match s3.dataStructures.btrees.get? id with
        | none => (s3, .panik)
        | some none => failSt s3 .InvalidDataStructureOperation
        | some (some b) => pushK s3 ((b.get key).getD 0) (fun s4 => (s4, .next))))
  | .BTreeRemove =>
    popK s (fun key s2 => popK s2 (fun id s3 =>
      if id ≥ s3.dataStructures.btrees.length then
        failSt s3 .InvalidDataStructureOperation
      else
        match s3.dataStructures.btrees.get? id with
        | none => (s3, .panik)
        | some none => failSt s3 .InvalidDataStructureOperation
        | some (some b) =>
          let r := b.remove key
          let s4 := { s3 with dataStructures := { s3.dataStructures with
              btrees := s3.dataStructures.btrees.set id (some r.2) } }
          pushK s4 (r.1.getD 0) (fun s5 => (s5, .next))))
  | .BTreeContains =>
    popK s (fun key s2 => popK s2 (fun id s3 =>
      if id ≥ s3.dataStructures.btrees.length then
        failSt s3 .InvalidDataStructureOperation
      else
        match s3.dataStructures.btrees.get? id with
        | none => (s3, .panik)
        | some none => failSt s3 .InvalidDataStructureOperation
        | some (some b) =>
          pushK s3 (if b.containsKey key then 1 else 0) (fun s4 => (s4, .next))))
  | .BTreeLen =>
    popK s (fun id s2 =>
      if id ≥ s2.dataStructures.btrees.length then
        failSt s2 .InvalidDataStructureOperation
      else
        match s2.dataStructures.btrees.get? id with
        | none => (s2, .panik)
        | some none => failSt s2 .InvalidDataStructureOperation
        | some (some b) => pushK s2 b.len (fun s3 => (s3, .next)))
  | .BTreeFirstKey =>
    popK s (fun id s2 =>
      if id ≥ s2.dataStructures.btrees.length then
        failSt s2 .InvalidDataStructureOperation
      else
        match s2.dataStructures.btrees.get? id with
        | none => (s2, .panik)
        | some none => failSt s2 .InvalidDataStructureOperation
        | some (some b) => pushK s2 (b.firstKey.getD 0) (fun s3 => (s3, .next)))
  | .BTreeLastKey =>
    popK s (fun id s2 =>
      if id ≥ s2.dataStructures.btrees.length then
        failSt s2 .InvalidDataStructureOperation
      else
        match s2.dataStructures.btrees.get? id with
        | none => (s2, .panik)
        | some none => failSt s2 .InvalidDataStructureOperation
        | some (some b) => pushK s2 (b.lastKey.getD 0) (fun s3 => (s3, .next)))
  | .BTreeClear =>
    popK s (fun id s2 =>
      let s3 := { s2 with dataStructures := { s2.dataStructures with
          btrees := listEnsure s2.dataStructures.btrees id } }
      match s3.dataStructures.btrees.get? id with
      | none => (s3, .panik)
      | some none => failSt s3 .InvalidDataStructureOperation
      | some (some b) =>
        ({ s3 with dataStructures := { s3.dataStructures with
            btrees := s3.dataStructures.btrees.set id (some b.clear) } }, .next))
  | .TrieCreate =>
    popK s (fun id s2 =>
      let s3 := { s2 with dataStructures := { s2.dataStructures with
          tries := listEnsure s2.dataStructures.tries id } }
      ({ s3 with dataStructures := { s3.dataStructures with
          tries := s3.dataStructures.tries.set id (some TrieDS.new) } }, .next))
  | .TrieInsert =>
    popK s (fun value s2 => popK s2 (fun keyLen s3 => popK s3 (fun keyPtr s4 =>
      popK s4 (fun id s5 =>
        let s6 := { s5 with dataStructures := { s5.dataStructures with
            tries := listEnsure s5.dataStructures.tries id } }
        match s6.memory.load keyPtr keyLen with
        | .error e => failSt s6 e
        | .ok key =>
          match s6.dataStructures.tries.get? id with
          | none => (s6, .panik)
          | some none => failSt s6 .InvalidDataStructureOperation
          | some (some t) =>
            ({ s6 with dataStructures := { s6.dataStructures with
                tries := s6.dataStructures.tries.set id
                  (some (t.insert key value)) } }, .next)))))
  | .TrieGet =>
    popK s (fun keyLen s2 => popK s2 (fun keyPtr s3 => popK s3 (fun id s4 =>
      if keyLen = 0 then failSt s4 .InvalidDataStructureOperation
      else
        let s5 := { s4 with dataStructures := { s4.dataStructures with
            tries := listEnsure s4.dataStructures.tries id } }
        match s5.memory.load keyPtr keyLen with
        | .error _ => failSt s5 .InvalidDataStructureOperation
        | .ok key =>
          match s5.dataStructures.tries.get? id with
          | none => (s5, .panik)
          | some none => failSt s5 .InvalidDataStructureOperation
          | some (some t) =>
            pushK s5 ((t.get key).getD 0) (fun s6 => (s6, .next)))))
  | .TrieContains =>
    popK s (fun keyLen s2 => popK s2 (fun keyPtr s3 => popK s3 (fun id s4 =>
      if keyLen = 0 then failSt s4 .InvalidDataStructureOperation
      else
        let s5 := { s4 with dataStructures := { s4.dataStructures with
            tries := listEnsure s4.dataStructures.tries id } }
        match s5.memory.load keyPtr keyLen with
        | .error _ => failSt s5 .InvalidDataStructureOperation
        | .ok key =>
          match s5.dataStructures.tries.get? id with
          | none => (s5, .panik)
          | some none => failSt s5 .InvalidDataStructureOperation
          | some (some t) =>
            pushK s5 (if t.contains key then 1 else 0) (fun s6 => (s6, .next)))))
  | .TrieClear =>
    popK s (fun id s2 =>
      let s3 := { s2 with dataStructures := { s2.dataStructures with
          tries := listEnsure s2.dataStructures.tries id } }
      match s3.dataStructures.tries.get? id with
      | none => (s3, .panik)
      | some none => failSt s3 .InvalidDataStructureOperation
      | some (some t) =>
        ({ s3 with dataStructures := { s3.dataStructures with
            tries := s3.dataStructures.tries.set id (some t.clear) } }, .next))
  | .GraphCreate =>
    popK s (fun id s2 =>
      if id ≥ s2.dataStructures.graphs.length then
        failSt s2 .InvalidDataStructureOperation
      else
        ({ s2 with dataStructures := { s2.dataStructures with
            graphs := s2.dataStructures.graphs.set id (some GraphDS.new) } }, .next))
  | .GraphAddNode =>
    popK s (fun value s2 => popK s2 (fun nodeId s3 => popK s3 (fun id s4 =>
      if id ≥ s4.dataStructures.graphs.length then
        failSt s4 .InvalidDataStructureOperation
      else
        match s4.dataStructures.graphs.get? id with
        | none => (s4, .panik)
        | some none => failSt s4 .InvalidDataStructureOperation
        | some (some g) =>
          match g.addNode nodeId value with
          | .ok g2 =>
            ({ s4 with dataStructures := { s4.dataStructures with
                graphs := s4.dataStructures.graphs.set id (some g2) } }, .next)
          | .error e => failSt s4 e)))
  | .GraphAddEdge =>
    popK s (fun weight s2 => popK s2 (fun toN s3 => popK s3 (fun fromN s4 =>
      popK s4 (fun id s5 =>
        if id ≥ s5.dataStructures.graphs.length then
          failSt s5 .InvalidDataStructureOperation
        else
          match s5.dataStructures.graphs.get? id with
          | none => (s5, .panik)
          | some none => failSt s5 .InvalidDataStructureOperation
          | some (some g) =>
            match g.addEdge fromN toN weight with
            | .ok g2 =>
              ({ s5 with dataStructures := { s5.dataStructures with
                  graphs := s5.dataStructures.graphs.set id (some g2) } }, .next)
            | .error e => failSt s5 e))))
  | .GraphGetNode =>
    popK s (fun nodeId s2 => popK s2 (fun id s3 =>
      if id ≥ s3.dataStructures.graphs.length then
        failSt s3 .InvalidDataStructureOperation
      else
        match s3.dataStructures.graphs.get? id with
        | none => (s3, .panik)
        | some none => failSt s3 .InvalidDataStructureOperation
        | some (some g) =>
          pushK s3 ((g.getNodeValue nodeId).getD 0) (fun s4 => (s4, .next))))
  | .GraphSetNode =>
    popK s (fun value s2 => popK s2 (fun nodeId s3 => popK s3 (fun id s4 =>
      if id ≥ s4.dataStructures.graphs.length then
        failSt s4 .InvalidDataStructureOperation
      else
        match s4.dataStructures.graphs.get? id with
        | none => (s4, .panik)
        | some none => failSt s4 .InvalidDataStructureOperation
        | some (some g) =>
          match g.setNodeValue nodeId value with
          | .ok g2 =>
            ({ s4 with dataStructures := { s4.dataStructures with
                graphs := s4.dataStructures.graphs.set id (some g2) } }, .next)
          | .error e => failSt s4 e)))
  | .GraphGetNeighbors =>
    popK s (fun nodeId s2 => popK s2 (fun id s3 =>
      if id ≥ s3.dataStructures.graphs.length then
        failSt s3 .InvalidDataStructureOperation
      else
        match s3.dataStructures.graphs.get? id with
        | none => (s3, .panik)
        | some none => failSt s3 .InvalidDataStructureOperation
        | some (some g) =>
          let neighbors := g.getNeighbors nodeId
          pushListK s3
            (neighbors.length ::
              (neighbors.reverse.flatMap (fun nw => [nw.2, nw.1])))
            (fun s4 => (s4, .next))))
  | .GraphBfs =>
    popK s (fun startNode s2 => popK s2 (fun id s3 =>
      if id ≥ s3.dataStructures.graphs.length then
        failSt s3 .InvalidDataStructureOperation
      else
        match s3.dataStructures.graphs.get? id with
        | none => (s3, .panik)
        | some none => failSt s3 .InvalidDataStructureOperation
        | some (some g) =>
          let bfsResult := g.bfs startNode
          pushListK s3 (bfsResult.length :: bfsResult.reverse)
            (fun s4 => (s4, .next))))
  | .GraphClear =>
    popK s (fun id s2 =>
      if id ≥ s2.dataStructures.graphs.length then
        failSt s2 .InvalidDataStructureOperation
      else
        match s2.dataStructures.graphs.get? id with
        | none => (s2, .panik)
        | some none => failSt s2 .InvalidDataStructureOperation
        | some (some g) =>
          ({ s2 with dataStructures := { s2.dataStructures with
              graphs := s2.dataStructures.graphs.set id (some g.clear) } }, .next))
  | .OhlcvCreate =>
    popK s (fun id s2 =>
      let s3 := { s2 with dataStructures := { s2.dataStructures with
          ohlcvs := listEnsure s2.dataStructures.ohlcvs id } }
      ({ s3 with dataStructures := { s3.dataStructures with
          ohlcvs := s3.dataStructures.ohlcvs.set id (some OHLCVDS.new) } }, .next))
  | .OhlcvAddBar =>
    popK s (fun volume s2 => popK s2 (fun close s3 => popK s3 (fun low s4 =>
      popK s4 (fun high s5 => popK s5 (fun openV s6 => popK s6 (fun timestamp s7 =>
        popK s7 (fun id s8 =>
          if id ≥ s8.dataStructures.ohlcvs.length then
            failSt s8 .InvalidDataStructureOperation
          else
            match s8.dataStructures.ohlcvs.get? id with
            | none => (s8, .panik)
            | some none => failSt s8 .InvalidDataStructureOperation
            | some (some o) =>
              let entry : OHLCVEntry :=
                { timestamp := timestamp, openV := openV, high := high,
                  low := low, close := close, volume := volume }
              match o.addEntry entry with
              | .ok o2 =>
                ({ s8 with dataStructures := { s8.dataStructures with
                    ohlcvs := s8.dataStructures.ohlcvs.set id (some o2) } }, .next)
              | .error e => failSt s8 e)))))))
  | .OhlcvGetBar =>
    popK s (fun index s2 => popK s2 (fun id s3 =>
      if id ≥ s3.dataStructures.ohlcvs.length then
        failSt s3 .InvalidDataStructureOperation
      else
        match s3.dataStructures.ohlcvs.get? id with
        | none => (s3, .panik)
        | some none => failSt s3 .InvalidDataStructureOperation
        | some (some o) =>
          match o.getEntry index with
          | some e =>
            pushListK s3 [e.volume, e.close, e.low, e.high, e.openV, e.timestamp]
              (fun s4 => (s4, .next))
          | none => pushListK s3 [0, 0, 0, 0, 0, 0] (fun s4 => (s4, .next))))
  | .OhlcvSma =>
    popK s (fun period s2 => popK s2 (fun id s3 =>
      if id ≥ s3.dataStructures.ohlcvs.length then
        failSt s3 .InvalidDataStructureOperation
      else
        match s3.dataStructures.ohlcvs.get? id with
        | none => (s3, .panik)
        | some none => failSt s3 .InvalidDataStructureOperation
        | some (some o) =>
          let smaResult := o.calculateSma period
          pushListK s3
            (smaResult.length ::
              (smaResult.reverse.flatMap (fun tv => [tv.2, tv.1])))
            (fun s4 => (s4, .next))))
  | .HyperCreate =>
    popK s (fun id s2 =>
      let s3 := { s2 with dataStructures := { s2.dataStructures with
          hypergraphs := listEnsure s2.dataStructures.hypergraphs id } }
      ({ s3 with dataStructures := { s3.dataStructures with
          hypergraphs := s3.dataStructures.hypergraphs.set id
            (some HypergraphDS.new) } }, .next))
  | .HyperAddNode =>
    popK s (fun value s2 => popK s2 (fun nodeId s3 => popK s3 (fun id s4 =>
      if id ≥ s4.dataStructures.hypergraphs.length then
        failSt s4 .InvalidDataStructureOperation
      else
        match s4.dataStructures.hypergraphs.get? id with
        | none => (s4, .panik)
        | some none => failSt s4 .InvalidDataStructureOperation
        | some (some h) =>
          match h.addNode nodeId value with
          | .ok h2 =>
            ({ s4 with dataStructures := { s4.dataStructures with
                hypergraphs := s4.dataStructures.hypergraphs.set id
                  (some h2) } }, .next)
          | .error e => failSt s4 e)))
  | .HyperAddEdge =>
    popK s (fun weight s2 => popK s2 (fun edgeId s3 => popK s3 (fun id s4 =>
      if id ≥ s4.dataStructures.hypergraphs.length then
        failSt s4 .InvalidDataStructureOperation
      else
        match s4.dataStructures.hypergraphs.get? id with
        | none => (s4, .panik)
        | some none => failSt s4 .InvalidDataStructureOperation
        | some (some h) =>
          match h.createHyperedge edgeId weight with
          | .ok h2 =>
            ({ s4 with dataStructures := { s4.dataStructures with
                hypergraphs := s4.dataStructures.hypergraphs.set id
                  (some h2) } }, .next)
          | .error e => failSt s4 e)))
  | .HyperAddNodeToEdge =>
    popK s (fun nodeId s2 => popK s2 (fun edgeId s3 => popK s3 (fun id s4 =>
      if id ≥ s4.dataStructures.hypergraphs.length then
        failSt s4 .InvalidDataStructureOperation
      else
        match s4.dataStructures.hypergraphs.get? id with
        | none => (s4, .panik)
        | some none => failSt s4 .InvalidDataStructureOperation
        | some (some h) =>
          match h.addNodeToEdge edgeId nodeId with
          | .ok h2 =>
            ({ s4 with dataStructures := { s4.dataStructures with
                hypergraphs := s4.dataStructures.hypergraphs.set id
                  (some h2) } }, .next)
          | .error e => failSt s4 e)))
  | _ => failSt s .InvalidInstruction

/-- One opcode handler body, dispatched by `execStep` after the fetch, the
gas charge and the `pc` increment, mirroring the `match opcode` arms of
`VM::execute` in `core.rs`. -/
def runOp (op : OpCode) (code : List Nat) (s : VMState) : VMState × StepExit :=
  match op with
  | .Nop => (s, .next)
  | .Push1 =>
    if s.pc ≥ code.length then failSt s .InvalidInstruction
    else
      pushK s (code.getD s.pc 0) (fun s2 => ({ s2 with pc := s2.pc + 1 }, .next))
  | .Push8 =>
    if s.pc + 8 > code.length then failSt s .InvalidInstruction
    else
      let value := fromLeBytes ((code.drop s.pc).take 8)
      pushK { s with pc := s.pc + 8 } value (fun s2 => (s2, .next))
  | .Pop => popK s (fun _ s2 => (s2, .next))
  | .Dup =>
    match code.get? s.pc with
    | none => (s, .panik)
    | some n =>
      match s.stack.dup n with
      | .ok st => ({ s with stack := st, pc := s.pc + 1 }, .next)
      | .fail e => failSt s e
      | .panik => (s, .panik)
  | .Swap =>
    match code.get? s.pc with
    | none => (s, .panik)
    | some n =>
      match s.stack.swap n with
      | .ok st => ({ s with stack := st, pc := s.pc + 1 }, .next)
      | .fail e => failSt s e
      | .panik => (s, .panik)
  | .Add =>
    popK s (fun b s2 => popK s2 (fun a s3 =>
      match checkedAdd a b with
      | some r => pushK s3 r (fun s4 => (s4, .next))
      | none => failSt s3 .ArithmeticOverflow))
  | .Sub =>
    popK s (fun b s2 => popK s2 (fun a s3 =>
      match checkedSub a b with
      | some r => pushK s3 r (fun s4 => (s4, .next))
      | none => failSt s3 .ArithmeticOverflow))
  | .Mul =>
    popK s (fun b s2 => popK s2 (fun a s3 =>
      match checkedMul a b with
      | some r => pushK s3 r (fun s4 => (s4, .next))
      | none => failSt s3 .ArithmeticOverflow))
  | .Div =>
    popK s (fun b s2 => popK s2 (fun a s3 =>
      match checkedDiv a b with
      | some r => pushK s3 r (fun s4 => (s4, .next))
      | none => failSt s3 .ArithmeticOverflow))
  | .MulDiv =>
    popK s (fun c s2 => popK s2 (fun b s3 => popK s3 (fun a s4 =>
      let mul := a * b
      if c = 0 then (s4, .panik)
      else
        let div := mul / c
        if div > U64MAX then failSt s4 .ArithmeticOverflow
        else pushK s4 div (fun s5 => (s5, .next)))))
  | .Mod =>
    popK s (fun b s2 => popK s2 (fun a s3 =>
      if b = 0 then failSt s3 .DivisionByZero
      else pushK s3 (a % b) (fun s4 => (s4, .next))))
  | .Exp =>
    popK s (fun exponent s2 => popK s2 (fun base s3 =>
      if exponent > 64 ∧ base > 1 then failSt s3 .ArithmeticOverflow
      else
        match expGo 1 base exponent with
        | .ok r => pushK s3 r (fun s4 => (s4, .next))
        | .error e => failSt s3 e))
  | .SignExtend =>
    popK s (fun byteNum s2 => popK s2 (fun value s3 =>
      if byteNum ≥ 8 then pushK s3 value (fun s4 => (s4, .retNone))
      else
        let bitPosition := (byteNum + 1) * 8 - 1
        let lowPart := value % 2 ^ (bitPosition + 1)
        let result :=
          if value / 2 ^ bitPosition % 2 = 1 then
            lowPart + (U64MOD - 2 ^ (bitPosition + 1))
          else lowPart
        pushK s3 result (fun s4 => (s4, .next))))
  | .Load =>
    popK s (fun offset s2 =>
      match s2.memory.load offset 8 with
      | .ok bytes => pushK s2 (fromLeBytes bytes) (fun s3 => (s3, .next))
      | .error e => failSt s2 e)
  | .Store =>
    popK s (fun offset s2 => popK s2 (fun value s3 =>
      match s3.memory.store offset (toLeBytes value) with
      | .ok m => ({ s3 with memory := m }, .next)
      | .error e => failSt s3 e))
  | .LoadN =>
    popK s (fun len s2 => popK s2 (fun offset s3 =>
      match s3.memory.load offset len with
      | .ok _ => (s3, .next)
      | .error e => failSt s3 e))
  | .StoreN =>
    popK s (fun len s2 => popK s2 (fun offset s3 => popK s3 (fun value s4 =>
      match s4.memory.store offset ((toLeBytes value).take (min len 8)) with
      | .ok m => ({ s4 with memory := m }, .next)
      | .error e => failSt s4 e)))
  | .Msize => pushK s s.memory.size (fun s2 => (s2, .next))
  | .Mload8 =>
    popK s (fun offset s2 =>
      match s2.memory.load8 offset with
      | .ok b => pushK s2 b (fun s3 => (s3, .next))
      | .error e => failSt s2 e)
  | .Mstore8 =>
    popK s (fun offset s2 => popK s2 (fun value s3 =>
      match s3.memory.store8 offset (value % 256) with
      | .ok m => ({ s3 with memory := m }, .next)
      | .error e => failSt s3 e))
  | .Jump =>
    popK s (fun target s2 =>
      if target ≥ code.length then failSt s2 .InvalidInstruction
      else ({ s2 with pc := target }, .next))
  | .JumpI =>
    popK s (fun target s2 => popK s2 (fun condition s3 =>
      if condition ≠ 0 then
        if target ≥ code.length then failSt s3 .InvalidInstruction
        else ({ s3 with pc := target }, .next)
      else (s3, .next)))
  | .Call =>
    popK s (fun target s2 =>
      if target ≥ code.length then failSt s2 .InvalidInstruction
      else
        match s2.stack.pushFrame with
        | .ok st => ({ s2 with stack := st, pc := target }, .next)
        | .error e => failSt s2 e)
  | .Return =>
    popK s (fun returnValue s2 =>
      match s2.stack.popFrame with
      | .ok st => ({ s2 with stack := st }, .ret returnValue)
      | .error e => failSt s2 e)
  | .Revert =>
    popK s (fun errorCode s2 => (s2, .fail (.custom (errorCode % 4294967296))))
  | .Halt => (s, .halted)
  | _ => runOpRest op s

/-- One iteration of the dispatch loop of `VM::execute`: the `fetch_opcode`
bound check and decode, the base gas charge, the trace emission (a no-op
with the `DefaultTracer`), the `pc` increment, and the handler. -/
def execStep (code : List Nat) (s : VMState) : VMState × StepExit :=
  if s.pc ≥ code.length then failSt s .InvalidInstruction
  else
    match OpCode.fromByte (code.getD s.pc 0) with
    | none => failSt s .InvalidInstruction
    | some op =>
      match s.gas.consume op.gasCost with
      | .error e => failSt s e
      | .ok g => runOp op code { s with gas := g, pc := s.pc + 1 }

/-- The outcome of `execute`: `Ok(None)` / `Ok(Some(v))` / `Err(e)`, plus a
marker for a Rust panic.  `fuelOut` is the artefact of the fuel-based loop
encoding; it is unreachable for the fuel `VM.execute` passes, because every
iteration that continues consumes at least one unit of gas. -/
inductive ExecResult where
  | ok (v : Option Nat)
  | err (e : ProgErr)
  | panik
  | fuelOut
  deriving DecidableEq, Repr

/-- The `while self.pc < code.len()` loop of `VM::execute`, plus its
epilogue `self.reentrancy_guard.exit(); Ok(None)`.  Only the normal loop
exits (`pc` past the end, or `Halt`'s `break`) run the epilogue that
clears the reentrancy flag; `Return`, `Revert` and every error path leave
the flag set. -/
def execLoop (code : List Nat) : Nat → VMState → VMState × ExecResult
  | 0, s => (s, .fuelOut)
  | fuel + 1, s =>
    if s.pc < code.length then
      match execStep code s with
      | (s2, .next) => execLoop code fuel s2
      | (s2, .halted) => ({ s2 with entered := false }, .ok none)
      | (s2, .ret v) => (s2, .ok (some v))
      | (s2, .retNone) => (s2, .ok none)
      | (s2, .fail e) => (s2, .err e)
      | (s2, .panik) => (s2, .panik)
    else ({ s with entered := false }, .ok none)

/-- `VM::execute`: the `ReentrancyGuard::enter` check, the loop, and the
final state.  The fuel `remaining + 1` dominates the iteration count since
every non-exiting opcode has a positive base gas cost. -/
def VM.execute (s : VMState) (code : List Nat) : VMState × ExecResult :=
  if s.entered then (s, .err VMError.ReentrancyDetected.toProg)
  else execLoop code (s.gas.remaining + 1) { s with entered := true }

/-- `VM::new`: gas limit 200 000, fresh stack/memory, empty store, guard
clear. -/
def VM.new (accounts : List AccountInfo) : VMState :=
  { pc := 0, gas := Gas.new 200000, stack := Stack.new, memory := Memory.new,
    accounts := accounts, dataStructures := DataStructureStore.new,
    entered := false }

/-- `VM::gas_used`: the hard-coded initial limit minus remaining gas. -/
def VM.gasUsed (s : VMState) : Nat := 200000 - s.gas.remaining

/-- A VM constructed over an empty account view. -/
def vmEmpty : VMState := VM.new []

/-- A sample account with the given lamport balance and writable flag. -/
def mkAccount (lam : Nat) (w : Bool) : AccountInfo :=
  { lamports := lam, ownerBytes := List.replicate 32 7, dataBytes := [1, 2],
    isSigner := false, isWritable := w }

/-- The fields of an account other than the lamport balance. -/
def AccountInfo.shape (a : AccountInfo) : List Nat × List Nat × Bool × Bool :=
  (a.ownerBytes, a.dataBytes, a.isSigner, a.isWritable)

/-- `n` repeated pushes of the value `v`. -/
def pushIter : Nat → Nat → Stack → Except VMError Stack
  | 0, _, s => .ok s
  | n + 1, v, s =>
    match s.push v with
    | .ok s2 => pushIter n v s2
    | .error e => .error e

/-- 65 consecutive `Push1 7` instructions. -/
def code65 : List Nat := (List.replicate 65 [0x01, 0x07]).flatten

/-- `push1 8; call 8; (filler); push1 5; return`: a program that terminates
through the `Return` handler with result 5. -/
def retCode : List Nat :=
  [0x01, 0x08, 0x32, 0x00, 0x00, 0x00, 0x00, 0x00, 0x01, 0x05, 0x33]

/-- `push1 42; revert`. -/
def revertProg : List Nat := [0x01, 0x2A, 0x34]

/-- `push1 5; push1 3; add; halt` — scenario 1 of the specification. -/
def addProg : List Nat := [0x01, 0x05, 0x01, 0x03, 0x10, 0xFF]

/-- `push1 5; push1 0; div; halt` — scenario 4 of the specification. -/
def divZeroProg : List Nat := [0x01, 0x05, 0x01, 0x00, 0x13, 0xFF]

/-- `push1 1; push1 1; push1 0; muldiv; halt`: `MulDiv` with `c = 0`. -/
def mdZeroProg : List Nat := [0x01, 0x01, 0x01, 0x01, 0x01, 0x00, 0x14, 0xFF]

/-- `push8 u64::MAX; push8 2; push1 1; muldiv; halt`: a `MulDiv` whose
128-bit result exceeds 64 bits. -/
def mdBigProg : List Nat :=
  [0x02, 0xFF, 0xFF, 0xFF, 0xFF, 0xFF, 0xFF, 0xFF, 0xFF,
   0x02, 0x02, 0x00, 0x00, 0x00, 0x00, 0x00, 0x00, 0x00,
   0x01, 0x01, 0x14, 0xFF]

/-- `push1 0; push1 1; push1 10; transfer; halt`: moves 10 lamports from
account 0 to account 1. -/
def transferProg : List Nat := [0x01, 0x00, 0x01, 0x01, 0x01, 0x0A, 0x40, 0xFF]

/-- `push1 42; push1 0; store; halt`: a `Store` raising the logical memory
size from 0 to 8. -/
def storeProg : List Nat := [0x01, 0x2A, 0x01, 0x00, 0x21, 0xFF]

/-- The VM state at loop entry for `storeProg` (guard already set). -/
def storeS0 : VMState := { vmEmpty with entered := true }

/-- After the first `Push1`. -/
def storeS1 : VMState := (execStep storeProg storeS0).1

/-- After the second `Push1` — the next instruction is the `Store`. -/
def storeS2 : VMState := (execStep storeProg storeS1).1

/-- After the `Store`. -/
def storeS3 : VMState := (execStep storeProg storeS2).1

/-- A VM over two non-writable accounts, with `src = 0`, `dest = 1`,
`amount = 10` already on the stack. -/
def c2wState : VMState :=
  { VM.new [mkAccount 100 false, mkAccount 0 false] with
    stack := Stack.mk [0, 1, 10] [] 3 }

/-- A VM with operands `5` and divisor `0` already on the stack. -/
def c5wState : VMState :=
  { vmEmpty with stack := Stack.mk [5, 0] [] 2 }

/-- Projection used by the per-operation bookkeeping lemmas: the handler
continuations built by `popK`/`pushK` act on the stack field only, so any
projection that ignores the stack is preserved. -/
theorem popK_track {α : Type} (f : VMState → α)
    (hf : ∀ (s : VMState) (st : Stack), f { s with stack := st } = f s)
    (s : VMState) (k : Nat → VMState → VMState × StepExit)
    (hk : ∀ v s2, f ((k v s2).1) = f s2) :
    f ((popK s k).1) = f s := by
  unfold popK
  split
  · exact (hk _ _).trans (hf s _)
  · rfl
  · rfl

/-- `pushK` analogue of `popK_track`. -/
theorem pushK_track {α : Type} (f : VMState → α)
    (hf : ∀ (s : VMState) (st : Stack), f { s with stack := st } = f s)
    (s : VMState) (v : Nat) (k : VMState → VMState × StepExit)
    (hk : ∀ s2, f ((k s2).1) = f s2) :
    f ((pushK s v k).1) = f s := by
  unfold pushK
  split
  · exact (hk _).trans (hf s _)
  · rfl

/-- `pushListK` analogue of `popK_track`. -/
theorem pushListK_track {α : Type} (f : VMState → α)
    (hf : ∀ (s : VMState) (st : Stack), f { s with stack := st } = f s)
    (k : VMState → VMState × StepExit)
    (hk : ∀ s2, f ((k s2).1) = f s2) :
    ∀ (vs : List Nat) (s : VMState), f ((pushListK s vs k).1) = f s
  | [], s => hk s
  | v :: t, s => by
    unfold pushListK
    exact pushK_track f hf s v _ (fun s2 => pushListK_track f hf k hk t s2)

/-- Overwriting a list entry with a value that agrees under `f` leaves the
`f`-image of the list unchanged. -/
theorem map_set_eq_of_get? {α β : Type} (f : α → β) :
    ∀ (l : List α) (i : Nat) (a b : α), l.get? i = some a → f b = f a →
      (l.set i b).map f = l.map f
  | [], i, a, b, h, _ => by simp at h
  | x :: t, 0, a, b, h, hf => by
    simp only [List.get?_cons_zero, Option.some_inj] at h
    subst h
    simp [hf]
  | x :: t, i + 1, a, b, h, hf => by
    simp only [List.get?_cons_succ] at h
    simp [map_set_eq_of_get? f t i a b h hf]

/-- `Stack.pop` on a stack whose vector ends in `x` yields `x` and drops
it, whenever the cursor is nonzero. -/
theorem pop_concat (s : Stack) (l : List Nat) (x : Nat)
    (hd : s.data = l ++ [x]) (ht : s.top ≠ 0) :
    s.pop = .ok (x, { s with data := l, top := s.top - 1 }) := by
  unfold Stack.pop
  rw [if_neg ht, hd, List.getLast?_concat, List.dropLast_concat]

/-- Every host/data-structure handler except `Transfer` leaves the account
view untouched. -/
theorem runOpRest_acc (op : OpCode) (s : VMState) (hop : op ≠ OpCode.Transfer) :
    ((runOpRest op s).1).accounts = s.accounts := by
  cases op <;> try (exact absurd rfl hop)
  all_goals (
    unfold runOpRest
    repeat' first
      | rfl
      | (apply popK_track (fun st => st.accounts) (fun _ _ => rfl); intro _ _)
      | (apply pushK_track (fun st => st.accounts) (fun _ _ => rfl); intro _)
      | (apply pushListK_track (fun st => st.accounts) (fun _ _ => rfl); intro _)
      | split
      | (simp only []))

/-- Every host/data-structure handler, `Transfer` included, preserves the
non-lamport fields of every account. -/
theorem runOpRest_shape (op : OpCode) (s : VMState) :
    ((runOpRest op s).1).accounts.map AccountInfo.shape =
      s.accounts.map AccountInfo.shape := by
  by_cases hop : op = OpCode.Transfer
  · subst hop
    unfold runOpRest
    apply popK_track (fun st => st.accounts.map AccountInfo.shape) (fun _ _ => rfl)
    intro amount s2
    apply popK_track (fun st => st.accounts.map AccountInfo.shape) (fun _ _ => rfl)
    intro destIdx s3
    apply popK_track (fun st => st.accounts.map AccountInfo.shape) (fun _ _ => rfl)
    intro srcIdx s4
    split
    · rfl
    · split
      · rfl
      · next src hsrc =>
        split
        · rfl
        · next newSrc hsub =>
          simp only []
          split
          · rfl
          · next dest hdest =>
            split
            · next hadd =>
              exact map_set_eq_of_get? AccountInfo.shape s4.accounts srcIdx src
                { src with lamports := newSrc } hsrc rfl
            · next newDest hadd =>
              show List.map AccountInfo.shape
                  ((s4.accounts.set srcIdx { src with lamports := newSrc }).set destIdx
                    { dest with lamports := newDest }) =
                List.map AccountInfo.shape s4.accounts
              refine (map_set_eq_of_get? AccountInfo.shape _ destIdx dest
                { dest with lamports := newDest } hdest rfl).trans ?_
              exact map_set_eq_of_get? AccountInfo.shape s4.accounts srcIdx src
                { src with lamports := newSrc } hsrc rfl
  · rw [runOpRest_acc op s hop]

/-- Every handler except `Transfer` leaves the account view untouched. -/
theorem runOp_acc (op : OpCode) (code : List Nat) (s : VMState)
    (hop : op ≠ OpCode.Transfer) :
    ((runOp op code s).1).accounts = s.accounts := by
  cases op <;> first
    | exact absurd rfl hop
    | exact runOpRest_acc _ _ hop
    | (unfold runOp
       repeat' first
        | rfl
        | (apply popK_track (fun st => st.accounts) (fun _ _ => rfl); intro _ _)
        | (apply pushK_track (fun st => st.accounts) (fun _ _ => rfl); intro _)
        | (apply pushListK_track (fun st => st.accounts) (fun _ _ => rfl); intro _)
        | split
        | (simp only []))

/-- Every handler preserves the non-lamport fields of every account. -/
theorem runOp_shape (op : OpCode) (code : List Nat) (s : VMState) :
    ((runOp op code s).1).accounts.map AccountInfo.shape =
      s.accounts.map AccountInfo.shape := by
  by_cases hop : op = OpCode.Transfer
  · subst hop
    exact runOpRest_shape .Transfer s
  · rw [runOp_acc op code s hop]

/-- One dispatch-loop iteration preserves the non-lamport account fields. -/
theorem execStep_shape (code : List Nat) (s : VMState) :
    ((execStep code s).1).accounts.map AccountInfo.shape =
      s.accounts.map AccountInfo.shape := by
  unfold execStep
  split
  · rfl
  · split
    · rfl
    · split
      · rfl
      · exact runOp_shape _ code _

/-- A dispatch-loop iteration whose fetched byte does not decode to
`Transfer` leaves the account view untouched. -/
theorem execStep_acc (code : List Nat) (s : VMState)
    (hop : OpCode.fromByte (code.getD s.pc 0) ≠ some OpCode.Transfer) :
    ((execStep code s).1).accounts = s.accounts := by
  unfold execStep
  split
  · rfl
  · split
    · rfl
    · next op heq =>
      split
      · rfl
      · refine runOp_acc op code _ ?_
        intro h
        rw [h] at heq
        exact hop heq

/-- The whole loop preserves the non-lamport account fields. -/
theorem execLoop_shape (code : List Nat) : ∀ (fuel : Nat) (s : VMState),
    ((execLoop code fuel s).1).accounts.map AccountInfo.shape =
      s.accounts.map AccountInfo.shape
  | 0, _ => rfl
  | fuel + 1, s => by
    have hstep := execStep_shape code s
    unfold execLoop
    split
    · split <;> rename_i s2 heq <;> rw [heq] at hstep
      · exact (execLoop_shape code fuel s2).trans hstep
      all_goals exact hstep
    · rfl

/-- `execute` preserves the non-lamport account fields. -/
theorem execute_shape (s : VMState) (code : List Nat) :
    ((VM.execute s code).1).accounts.map AccountInfo.shape =
      s.accounts.map AccountInfo.shape := by
  unfold VM.execute
  split
  · rfl
  · exact execLoop_shape code _ _

/-- The three store handlers never touch the gas meter: all gas accounting
for a store happens in the dispatch prologue's base-cost charge. -/
theorem runOp_store_gas (op : OpCode) (code : List Nat) (s : VMState)
    (hop : op = OpCode.Store ∨ op = OpCode.Mstore8 ∨ op = OpCode.StoreN) :
    ((runOp op code s).1).gas = s.gas := by
  rcases hop with h | h | h <;> subst h <;>
    (unfold runOp
     repeat' first
       | rfl
       | (apply popK_track (fun st => st.gas) (fun _ _ => rfl); intro _ _)
       | split
       | (simp only []))

/-- C1: the claim states that every exit from `execute` — Halt, Return,
Revert, end of bytecode, or any error — clears the reentrancy flag, so a
later `execute` cannot fail with reentrancy-detected.  In the code only the
Halt `break` and the natural loop exit run the epilogue that clears the
flag: a `Return` exit (here with value 5), a `Revert` exit (custom error
42) and an error exit (a stack underflow) all leave `entered = true`, and
the next `execute` on the same VM fails with `ReentrancyDetected`. -/
theorem C1_reentrancy_flag_leak :
    (VM.execute vmEmpty retCode).2 = .ok (some 5) ∧
    ((VM.execute vmEmpty retCode).1).entered = true ∧
    (VM.execute ((VM.execute vmEmpty retCode).1) [0x00]).2 =
      .err VMError.ReentrancyDetected.toProg ∧
    (VM.execute vmEmpty revertProg).2 = .err (.custom 42) ∧
    ((VM.execute vmEmpty revertProg).1).entered = true ∧
    (VM.execute ((VM.execute vmEmpty revertProg).1) [0x00]).2 =
      .err VMError.ReentrancyDetected.toProg ∧
    (VM.execute vmEmpty [0x10]).2 = .err VMError.StackUnderflow.toProg ∧
    ((VM.execute vmEmpty [0x10]).1).entered = true ∧
    (VM.execute ((VM.execute vmEmpty [0x10]).1) [0x00]).2 =
      .err VMError.ReentrancyDetected.toProg :=
  ⟨rfl, rfl, rfl, rfl, rfl, rfl, rfl, rfl, rfl⟩

/-- C3: the claim states the stack depth never exceeds 64 and that a push
onto a stack holding 64 values fails with stack-overflow.  Because
`Stack::new` pre-fills the backing vector with 64 zeros and `push` compares
`top` against the vector *length* (which always stays 64 ahead of `top`),
push never fails: 65 consecutive pushes all succeed, both at the `Stack`
level and through `execute`, and the depth reaches 65. -/
theorem C3_stack_overflow_never_fires :
    (pushIter 65 7 Stack.new).map Stack.depth = .ok 65 ∧
    (VM.execute vmEmpty code65).2 = .ok none ∧
    (VM.execute vmEmpty code65).1.stack.depth = 65 :=
  ⟨rfl, rfl, rfl⟩

/-- C4: the claim states that after a successful `push(v)`, `peek()`
returns `v`, and `dup(n)` copies the item `n` below the top.  In the code
`peek` and `dup` index `data[top - 1 - n]`, but pushed values live at the
*end* of the pre-filled 64-zero vector, so after pushing 5 onto a fresh
stack `peek` returns the stale 0 (not 5) and `dup(0)` pushes 0. -/
theorem C4_peek_dup_read_stale_slots :
    (Stack.new.push 5).map Stack.peek = .ok (.ok 0) ∧
    (Stack.new.push 5).map Stack.peek ≠ .ok (.ok 5) ∧
    ((Stack.new.push 5).map (fun s =>
      match s.dup 0 with
      | .ok s2 => s2.data.getLast?
      | .fail _ => none
      | .panik => none)) = .ok (some 0) := by
  refine ⟨rfl, ?_, rfl⟩
  intro h
  have h0 : (Stack.new.push 5).map Stack.peek = .ok (.ok 0) := rfl
  rw [h0] at h
  simp at h

/-- C5 counterexample: the claim states that `Div` with a zero divisor
fails with the division-by-zero error and that `01 05 01 00 13 FF` yields
that error.  The `Div` handler maps the `None` of `checked_div` to
`ArithmeticOverflow`, so the program yields custom error 6
(arithmetic overflow), not custom error 9 (division by zero). -/
theorem C5_div_zero_counterexample :
    (VM.execute vmEmpty divZeroProg).2 = .err VMError.ArithmeticOverflow.toProg ∧
    VMError.ArithmeticOverflow.toProg ≠ VMError.DivisionByZero.toProg := by
  refine ⟨rfl, ?_⟩
  decide

/-- C6: the claim states `MulDiv` returns an error (rather than panicking)
when the result exceeds 64 bits or when `c` is zero.  The handler divides
the 128-bit product by `c` *unchecked*, so `c = 0` is a Rust panic
(modelled by the `panik` outcome); the over-64-bit case does return
`ArithmeticOverflow` as claimed. -/
theorem C6_muldiv_zero_divisor_panics :
    (VM.execute vmEmpty mdZeroProg).2 = .panik ∧
    (VM.execute vmEmpty mdBigProg).2 = .err VMError.ArithmeticOverflow.toProg :=
  ⟨rfl, rfl⟩

/-- C7: the claim states the ordered-map create opcode auto-grows the
vector so the handle becomes valid, after which insert/get and
insert/remove/contains round-trip.  `BTreeCreate` instead *rejects* any
handle `>= btrees.len()`, and the vector starts empty, so create fails
with `InvalidDataStructureOperation` for every handle on a fresh VM and
the round trips are unreachable through the opcodes.  The underlying
`BTreeMapDS` model does satisfy the round trips from a fresh map. -/
theorem C7_btree_create_always_fails :
    (VM.execute vmEmpty [0x01, 0x00, 0x50]).2 =
      .err VMError.InvalidDataStructureOperation.toProg ∧
    (VM.execute vmEmpty [0x01, 0x2A, 0x50]).2 =
      .err VMError.InvalidDataStructureOperation.toProg ∧
    (∀ k v : Nat, ((BTreeMapDS.new.insert k v).2.get k) = some v) ∧
    (∀ k v : Nat,
      ((((BTreeMapDS.new.insert k v).2.remove k).2).containsKey k) = false) := by
  refine ⟨rfl, rfl, ?_, ?_⟩
  · intro k v
    simp [BTreeMapDS.new, BTreeMapDS.insert, btreeInsertList, BTreeMapDS.get]
  · intro k v
    simp [BTreeMapDS.new, BTreeMapDS.insert, btreeInsertList, BTreeMapDS.remove,
      btreeRemoveList, BTreeMapDS.containsKey, BTreeMapDS.get]

/-- C9 counterexample: the claim predicts `gas_used = 9` for
`01 05 01 03 10 FF` (with push1 costed at 3).  The gas table charges 2 for
`Push1`, so the program uses 2 + 2 + 3 + 0 = 7 gas, not 9. -/
theorem C9_gas_used_counterexample :
    VM.gasUsed (VM.execute vmEmpty addProg).1 = 7 ∧ (7 : Nat) ≠ 9 := by
  refine ⟨rfl, ?_⟩
  decide

/-- C9 amended: `01 05 01 03 10 FF` terminates successfully with no return
value, the value 8 on top of the stack (the last element of the backing
vector, which is what `pop` would yield), and `gas_used = 7`
(2 + 2 + 3 + 0, `Push1` costing 2). -/
theorem C9_basic_program :
    (VM.execute vmEmpty addProg).2 = .ok none ∧
    (VM.execute vmEmpty addProg).1.stack.data.getLast? = some 8 ∧
    VM.gasUsed (VM.execute vmEmpty addProg).1 = 7 :=
  ⟨rfl, rfl, rfl⟩

/-- C2 counterexample: the claim states `Transfer` fails whenever either
endpoint is not writable.  The handler performs no writability check: with
both accounts non-writable the transfer of 10 lamports succeeds and moves
the balances from (100, 0) to (90, 10). -/
theorem C2_transfer_ignores_writable :
    ((VM.new [mkAccount 100 false, mkAccount 0 false]).accounts.map
      (fun a => a.isWritable)) = [false, false] ∧
    (VM.execute (VM.new [mkAccount 100 false, mkAccount 0 false]) transferProg).2 =
      .ok none ∧
    ((VM.execute (VM.new [mkAccount 100 false, mkAccount 0 false])
      transferProg).1.accounts.map (fun a => a.lamports)) = [90, 10] :=
  ⟨rfl, rfl, rfl⟩

/-- C8 counterexample: the claim states a store that raises the logical
memory size consumes its base cost plus the expansion charge.  For the
`Store` of `storeProg` (size 0 → 8) the expansion charge under the
`gas.rs` formula is 3, so the claim predicts 3 + 3 = 6 gas; the dispatch
loop charges only the base cost 3. -/
theorem C8_store_charges_base_only_cx :
    storeProg.getD storeS2.pc 0 = 0x21 ∧
    (execStep storeProg storeS2).2 = .next ∧
    storeS2.memory.size = 0 ∧
    storeS3.memory.size = 8 ∧
    storeS2.gas.remaining - storeS3.gas.remaining = 3 ∧
    OpCode.gasCost .Store +
      Gas.memoryExpansionCost storeS2.memory.size storeS3.memory.size = 6 ∧
    (3 : Nat) ≠ 6 := by
  refine ⟨rfl, rfl, rfl, rfl, rfl, rfl, ?_⟩
  decide

/-- C2 amended: `Transfer` verifies only that both indices are in the
account view and that the balance updates pass the checked arithmetic; the
writable flags play no role.  Under those hypotheses alone — with no
writability assumption — the opcode succeeds and moves the lamports,
decrementing the source (read before the write) and incrementing the
destination (read after the source write, so a self-transfer is a no-op
in sum). -/
theorem C2_transfer_requires_only_range_and_arith (s : VMState) (base : List Nat)
    (src dest amount : Nat) (srcAcct destAcct : AccountInfo)
    (hdata : s.stack.data = base ++ [src, dest, amount])
    (htop : 3 ≤ s.stack.top)
    (hsrc : s.accounts.get? src = some srcAcct)
    (hdest : dest < s.accounts.length)
    (hsub : amount ≤ srcAcct.lamports)
    (hdestA : (s.accounts.set src
        { srcAcct with lamports := srcAcct.lamports - amount }).get? dest =
        some destAcct)
    (hadd : destAcct.lamports + amount < U64MOD) :
    (runOpRest .Transfer s).2 = .next ∧
    ((runOpRest .Transfer s).1).accounts =
      (s.accounts.set src { srcAcct with lamports := srcAcct.lamports - amount }).set
        dest { destAcct with lamports := destAcct.lamports + amount } := by
  have h1 : s.stack.pop = .ok (amount,
      Stack.mk (base ++ [src, dest]) s.stack.frames (s.stack.top - 1)) := by
    refine pop_concat _ _ _ ?_ (by omega)
    rw [hdata]; simp [List.append_assoc]
  have h2 : (Stack.mk (base ++ [src, dest]) s.stack.frames (s.stack.top - 1)).pop =
      .ok (dest, Stack.mk (base ++ [src]) s.stack.frames (s.stack.top - 1 - 1)) := by
    refine pop_concat _ _ _ ?_ ?_
    · simp [List.append_assoc]
    · show s.stack.top - 1 ≠ 0
      omega
  have h3 : (Stack.mk (base ++ [src]) s.stack.frames (s.stack.top - 1 - 1)).pop =
      .ok (src, Stack.mk base s.stack.frames (s.stack.top - 1 - 1 - 1)) := by
    refine pop_concat _ _ _ rfl ?_
    show s.stack.top - 1 - 1 ≠ 0
    omega
  have hcs : checkedSub srcAcct.lamports amount =
      some (srcAcct.lamports - amount) := by
    simp [checkedSub, hsub]
  have hca : checkedAdd destAcct.lamports amount =
      some (destAcct.lamports + amount) := by
    simp [checkedAdd, hadd]
  have hcond : ¬ (src ≥ s.accounts.length ∨ dest ≥ s.accounts.length) := by
    have hsrcLt : src < s.accounts.length := by
      by_contra hc
      rw [List.get?_eq_none.2 (by omega)] at hsrc
      exact Option.noConfusion hsrc
    omega
  constructor <;>
    simp only [runOpRest, popK, h1, h2, h3, if_neg hcond, hsrc, hdestA, hcs, hca]

/-- C2 witness: the amended transfer theorem applied to two non-writable
accounts with balances 100 and 0 and a transfer of 10. -/
theorem C2_transfer_witness :
    (runOpRest .Transfer c2wState).2 = .next ∧
    ((runOpRest .Transfer c2wState).1).accounts =
      (([mkAccount 100 false, mkAccount 0 false].set 0
        { mkAccount 100 false with lamports := 100 - 10 }).set 1
        { mkAccount 0 false with lamports := 0 + 10 }) :=
  C2_transfer_requires_only_range_and_arith c2wState [] 0 1 10
    (mkAccount 100 false) (mkAccount 0 false) rfl (by decide) rfl (by decide)
    (by decide) rfl (by decide)

/-- C5 amended: for every pair of operands, `Div` with a zero divisor
fails with the *arithmetic-overflow* error (the handler maps the `None` of
`checked_div` to `ArithmeticOverflow`), while `Mod` with a zero divisor
fails with the division-by-zero error; the example bytecode
`01 05 01 00 13 FF` accordingly yields arithmetic overflow and no result
value. -/
theorem C5_div_mod_zero_divisor (s : VMState) (code base : List Nat) (a : Nat)
    (hdata : s.stack.data = base ++ [a, 0]) (htop : 2 ≤ s.stack.top) :
    (runOp .Div code s).2 = .fail VMError.ArithmeticOverflow.toProg ∧
    (runOp .Mod code s).2 = .fail VMError.DivisionByZero.toProg ∧
    (VM.execute vmEmpty divZeroProg).2 = .err VMError.ArithmeticOverflow.toProg := by
  have h1 : s.stack.pop = .ok (0,
      Stack.mk (base ++ [a]) s.stack.frames (s.stack.top - 1)) := by
    refine pop_concat _ _ _ ?_ (by omega)
    rw [hdata]; simp [List.append_assoc]
  have h2 : (Stack.mk (base ++ [a]) s.stack.frames (s.stack.top - 1)).pop =
      .ok (a, Stack.mk base s.stack.frames (s.stack.top - 1 - 1)) := by
    refine pop_concat _ _ _ rfl ?_
    show s.stack.top - 1 ≠ 0
    omega
  refine ⟨?_, ?_, rfl⟩ <;>
    simp [runOp, popK, h1, h2, checkedDiv, failSt]

/-- C5 witness: the divisor-zero theorem applied to the stack `[5, 0]`. -/
theorem C5_div_mod_witness :
    (runOp .Div [] c5wState).2 = .fail VMError.ArithmeticOverflow.toProg ∧
    (runOp .Mod [] c5wState).2 = .fail VMError.DivisionByZero.toProg ∧
    (VM.execute vmEmpty divZeroProg).2 = .err VMError.ArithmeticOverflow.toProg :=
  C5_div_mod_zero_divisor c5wState [] [] 5 rfl (by decide)

/-- C8 amended: the expansion-charge formula of the claim is implemented
by `Gas::memory_expansion_cost`, but the dispatch loop never invokes it:
for every `Store`, `Mstore8` or `StoreN` instruction (with enough gas for
the base cost), the gas consumed by the whole step is exactly the
opcode's base cost, whatever memory growth the store causes. -/
theorem C8_dispatch_charges_base_only (code : List Nat) (s : VMState) (op : OpCode)
    (hfetch : OpCode.fromByte (code.getD s.pc 0) = some op)
    (hop : op = OpCode.Store ∨ op = OpCode.Mstore8 ∨ op = OpCode.StoreN)
    (hpc : s.pc < code.length)
    (hgas : op.gasCost ≤ s.gas.remaining) :
    ((execStep code s).1).gas.remaining = s.gas.remaining - op.gasCost := by
  unfold execStep
  rw [if_neg (by omega)]
  simp only [hfetch, Gas.consume, if_pos hgas]
  rw [runOp_store_gas op code _ hop]

/-- C8 witness: the base-cost-only theorem applied to a one-byte `Store`
program on a fresh VM. -/
theorem C8_dispatch_charges_base_only_witness :
    ((execStep [0x21] vmEmpty).1).gas.remaining =
      vmEmpty.gas.remaining - OpCode.gasCost .Store :=
  C8_dispatch_charges_base_only [0x21] vmEmpty .Store rfl (Or.inl rfl)
    (by decide) (by decide)

/-- C10: `execute` mutates the host accounts only through their lamport
balances — the owner, data, signer and writable fields of every account
are unchanged by every execution — and a dispatch step whose fetched byte
does not decode to `Transfer` leaves the whole account view (balances
included) unchanged. -/
theorem C10_account_frame :
    (∀ (s : VMState) (code : List Nat),
      ((VM.execute s code).1).accounts.map AccountInfo.shape =
        s.accounts.map AccountInfo.shape) ∧
    (∀ (code : List Nat) (s : VMState),
      OpCode.fromByte (code.getD s.pc 0) ≠ some OpCode.Transfer →
        ((execStep code s).1).accounts = s.accounts) :=
  ⟨execute_shape, execStep_acc⟩

/-- C10 witness: the frame theorem applied to a one-account VM running a
`Nop`. -/
theorem C10_account_frame_witness :
    ((VM.execute (VM.new [mkAccount 5 true]) [0x00]).1).accounts.map
      AccountInfo.shape =
      (VM.new [mkAccount 5 true]).accounts.map AccountInfo.shape ∧
    ((execStep [0x00] (VM.new [mkAccount 5 true])).1).accounts =
      (VM.new [mkAccount 5 true]).accounts :=
  ⟨C10_account_frame.1 (VM.new [mkAccount 5 true]) [0x00],
   C10_account_frame.2 [0x00] (VM.new [mkAccount 5 true]) (by decide)⟩

end LessVM
